import Mathlib

/-!
Verification development for the EV-Market-Analysis pipeline
(`src/scripts/data_processor.py`).

The script is a linear ETL-and-report pipeline over a pandas DataFrame:
`load_data` reads and cleans the registration table, `forecast_future_registrations`
fits an exponential growth curve to per-year counts, and `plot_all_charts`
derives eight aggregations and writes eight chart images.

Embedding conventions:
* a DataFrame is a `List` of typed records; `reset_index(drop=True)` is
  implicit in the list representation (positions are always dense);
* `pd.Series.value_counts()` is modelled as deduplicated keys paired with
  their multiplicities, stably sorted by descending count (pandas leaves
  the order of tied counts unspecified; the spec records this tie
  nondeterminism as accepted, and every theorem below is tie-robust);
* floating-point numbers are modelled as rationals; the two opaque numeric
  routines (`scipy.optimize.curve_fit`'s least-squares solver and the
  transcendental `a * exp(b * x)`) are abstracted as function parameters,
  while `curve_fit`'s deterministic input validation (the parameter count 2
  must not exceed the number of data points, otherwise it raises) is
  embedded explicitly;
* the single `datetime.now()` call of `plot_all_charts` (line 51) is
  modelled by reading index 0 of an ambient clock stream;
* `try/except` becomes `Except`/`Option`; the mutable `df` variable of
  `plot_all_charts` is threaded explicitly and returned, so that absence of
  mutation is a statable property.
-/

/-! ## Generic stable insertion sort keyed by a projection -/

def insertSorted {α β : Type} [LinearOrder β] (key : α → β) (p : α) : List α → List α
  | [] => [p]
  | q :: rest => if key p ≤ key q then p :: q :: rest else q :: insertSorted key p rest

def sortByKey {α β : Type} [LinearOrder β] (key : α → β) : List α → List α
  | [] => []
  | p :: rest => insertSorted key p (sortByKey key rest)

/-! ## `value_counts`: pandas `Series.value_counts()` (descending by count),
and `sort_index` (ascending by key) -/

def value_counts {α : Type} [DecidableEq α] (l : List α) : List (α × Nat) :=
  sortByKey (fun p => OrderDual.toDual p.2) (l.dedup.map (fun k => (k, l.count k)))

def sort_index {β : Type} (l : List (Int × β)) : List (Int × β) :=
  sortByKey (fun p => p.1) l

/-! ## Data model: registration records (lines 20-30)

`RawRow` is a parsed CSV row restricted to the eight tracked columns, each
field possibly missing (`None` models a pandas NA). `Row` is a cleaned
record in which every field is present. Categorical columns are plain
strings (the `category` dtype only changes storage), `Model Year` is an
integer, `Electric Range` a rational standing for the `float32` value. -/

structure RawRow where
  state : Option String
  modelYear : Option Int
  make : Option String
  model : Option String
  county : Option String
  city : Option String
  evType : Option String
  electricRange : Option ℚ
deriving DecidableEq

structure Row where
  state : String
  modelYear : Int
  make : String
  model : String
  county : String
  city : String
  evType : String
  electricRange : ℚ
deriving DecidableEq

def cleanRow (a : RawRow) : Option Row :=
  a.state.bind fun s =>
  a.modelYear.bind fun y =>
  a.make.bind fun mk =>
  a.model.bind fun md =>
  a.county.bind fun co =>
  a.city.bind fun ci =>
  a.evType.bind fun t =>
  a.electricRange.map fun er => ⟨s, y, mk, md, co, ci, t, er⟩

def rowToRaw (r : Row) : RawRow :=
  ⟨some r.state, some r.modelYear, some r.make, some r.model, some r.county,
   some r.city, some r.evType, some r.electricRange⟩

def allPresent (a : RawRow) : Bool :=
  a.state.isSome && a.modelYear.isSome && a.make.isSome && a.model.isSome &&
  a.county.isSome && a.city.isSome && a.evType.isSome && a.electricRange.isSome

/-! ## Data Loader (`load_data`, lines 18-47)

The input is the outcome of `pd.read_csv` with the fixed `usecols`/`dtype`
settings: `Except.error` stands for any raised read/parse/coercion failure,
`Except.ok raws` for a successfully parsed table. The `try` body then drops
rows with a missing value (`dropna`, line 40) and keeps rows whose `State`
is `'WA'` (line 42); both `reset_index(drop=True)` calls are the identity
on the list representation. The `except` arm (lines 45-47) returns `none`. -/

def load_data (input : Except String (List RawRow)) : Option (List Row) :=
  match input with
  | Except.error _ => none
  | Except.ok raws =>
      some ((raws.filterMap cleanRow).filter (fun r => r.state == "WA"))

/-! ## Aggregations (lines 53-61, 80, 122, 141, 154) -/

def ev_adoption_by_year (df : List Row) : List (Int × Nat) :=
  sort_index (value_counts (df.map (fun r => r.modelYear)))

def ev_county_distribution (df : List Row) : List (String × Nat) :=
  value_counts (df.map (fun r => r.county))

def top_counties (df : List Row) : List String :=
  ((ev_county_distribution df).take 3).map (fun p => p.1)

def top_counties_data (df : List Row) : List Row :=
  df.filter (fun r => decide (r.county ∈ top_counties df))

def ev_type_distribution (df : List Row) : List (String × Nat) :=
  value_counts (df.map (fun r => r.evType))

def make_counts (df : List Row) : List (String × Nat) :=
  value_counts (df.map (fun r => r.make))

def ev_make_distribution (df : List Row) : List (String × Nat) :=
  (make_counts df).take 5

def top_3_makes (df : List Row) : List String :=
  ((ev_make_distribution df).take 3).map (fun p => p.1)

def top_makes_data (df : List Row) : List Row :=
  df.filter (fun r => decide (r.make ∈ top_3_makes df))

def city_pair_counts (df : List Row) : List ((String × String) × Nat) :=
  value_counts ((top_counties_data df).map (fun r => (r.county, r.city)))

def ev_city_distribution_top_counties (df : List Row) : List ((String × String) × Nat) :=
  (city_pair_counts df).take 5

def model_pair_counts (df : List Row) : List ((String × String) × Nat) :=
  value_counts ((top_makes_data df).map (fun r => (r.make, r.model)))

def top_models (df : List Row) : List ((String × String) × Nat) :=
  (model_pair_counts df).take 5

def groupby_mean {κ : Type} [DecidableEq κ] (l : List (κ × ℚ)) : List (κ × ℚ) :=
  ((l.map (fun p => p.1)).dedup).map (fun k =>
    (k, ((l.filter (fun p => decide (p.1 = k))).map (fun p => p.2)).sum /
        ((l.filter (fun p => decide (p.1 = k))).length : ℚ)))

def average_range_by_year (df : List Row) : List (Int × ℚ) :=
  sort_index (groupby_mean (df.map (fun r => (r.modelYear, r.electricRange))))

def average_range_by_model (df : List Row) : List ((String × String) × ℚ) :=
  sortByKey (fun p => OrderDual.toDual p.2)
    (groupby_mean ((top_makes_data df).map (fun r => ((r.make, r.model), r.electricRange))))

def top_range_models (df : List Row) : List ((String × String) × ℚ) :=
  (average_range_by_model df).take 5

/-! ## Display-label truncation (lines 81, 124, 156):
`x[:12] + '...' if len(x) > 12 else x` -/

def truncate_label (x : String) : String :=
  if x.length > 12 then x.take 12 ++ "..." else x

/-! ## Per-year counts restricted to the cutoff year (lines 173-174 and 194-195
compute the identical expression:
`df['Model Year'].value_counts().sort_index()` filtered to index ≤ 2023) -/

def filtered_years (df : List Row) : List (Int × Nat) :=
  (ev_adoption_by_year df).filter (fun p => decide (p.1 ≤ 2023))

/-! ## Chart Renderer (`plot_all_charts`, lines 49-190)

Each chart is recorded as its output filename plus the data series drawn.
The filename format is `{output_prefix}_{slug}_{timestamp}.png`; the
timestamp is `datetime.now()` formatted, read exactly once (line 51) from
the ambient clock stream. The function receives and returns the table
variable `df`; a mutation of the table would surface as a changed second
component. -/

def forecast_years_full : List Int := [2024, 2025, 2026, 2027, 2028, 2029]

def chart_filename (opref slug timestamp : String) : String :=
  opref ++ "_" ++ slug ++ "_" ++ timestamp ++ ".png"

def chart_slugs : List String :=
  ["ev_adoption_over_time", "top_cities_in_top_counties", "ev_type_distribution",
   "top_5_makes", "top_models_in_top_makes", "average_range_by_year",
   "top_models_by_range", "ev_market_forecast"]

structure ChartsOutput where
  adoptionFile : String
  adoption : List (Int × Nat)
  topCitiesFile : String
  topCities : List ((String × String) × Nat)
  typeDistFile : String
  typeDist : List (String × Nat)
  makesFile : String
  makes : List (String × Nat)
  topModelsFile : String
  topModels : List ((String × String) × Nat)
  avgRangeFile : String
  avgRange : List (Int × ℚ)
  topRangeFile : String
  topRange : List ((String × String) × ℚ)
  forecastFile : String
  actualLine : List (Int × Nat)
  forecastLine : List (Int × Option ℚ)
deriving DecidableEq

def plot_all_charts (df : List Row) (forecasted_evs : List (Int × ℚ))
    (opref : String) (clock : Nat → String) : ChartsOutput × List Row :=
  let timestamp := clock 0
  ({ adoptionFile := chart_filename opref "ev_adoption_over_time" timestamp
     adoption := ev_adoption_by_year df
     topCitiesFile := chart_filename opref "top_cities_in_top_counties" timestamp
     topCities := (ev_city_distribution_top_counties df).map
       (fun p => ((p.1.1, truncate_label p.1.2), p.2))
     typeDistFile := chart_filename opref "ev_type_distribution" timestamp
     typeDist := ev_type_distribution df
     makesFile := chart_filename opref "top_5_makes" timestamp
     makes := ev_make_distribution df
     topModelsFile := chart_filename opref "top_models_in_top_makes" timestamp
     topModels := (top_models df).map (fun p => ((p.1.1, truncate_label p.1.2), p.2))
     avgRangeFile := chart_filename opref "average_range_by_year" timestamp
     avgRange := average_range_by_year df
     topRangeFile := chart_filename opref "top_models_by_range" timestamp
     topRange := (top_range_models df).map (fun p => ((p.1.1, truncate_label p.1.2), p.2))
     forecastFile := chart_filename opref "ev_market_forecast" timestamp
     actualLine := filtered_years df
     forecastLine := forecast_years_full.map (fun y => (y, forecasted_evs.lookup y)) },
   df)

/-! ## Forecaster (`forecast_future_registrations`, lines 192-208)

`scipy.optimize.curve_fit` on the two-parameter model `a * exp(b * x)` is
split into (a) its deterministic input validation — with two free
parameters the underlying least-squares routine raises
`Improper input: N=2 must not exceed M=...` whenever fewer than two data
points are supplied — and (b) an abstract solver `fitter` returning the
fitted pair `(a, b)`. The transcendental model function is likewise an
abstract parameter `exp_growth a b x`, standing for `a * np.exp(b * x)`.
`Except.error` models an uncaught exception terminating the run. -/

def idxMin : List Int → Option Int
  | [] => none
  | y :: rest => some (rest.foldl min y)

def curve_fit (fitter : List (ℚ × ℚ) → ℚ × ℚ) (data : List (ℚ × ℚ)) :
    Except String (ℚ × ℚ) :=
  if data.length < 2 then Except.error "Improper input: N=2 must not exceed M"
  else Except.ok (fitter data)

def fit_xdata (df : List Row) (ymin : Int) : List ℚ :=
  (filtered_years df).map (fun p => ((p.1 - ymin : Int) : ℚ))

def fit_ydata (df : List Row) : List ℚ :=
  (filtered_years df).map (fun p => (p.2 : ℚ))

def forecast_future_registrations (fitter : List (ℚ × ℚ) → ℚ × ℚ)
    (exp_growth : ℚ → ℚ → ℚ → ℚ) (df : List Row) :
    Except String (List (Int × ℚ)) :=
  match idxMin ((filtered_years df).map (fun p => p.1)) with
  | none => Except.error "attempt to get argmin of an empty sequence"
  | some ymin =>
      match curve_fit fitter ((fit_xdata df ymin).zip (fit_ydata df)) with
      | Except.error e => Except.error e
      | Except.ok (a, b) =>
          Except.ok (forecast_years_full.map
            (fun y => (y, exp_growth a b ((y - ymin : Int) : ℚ))))

/-! ## Top-level driver (`main`, lines 210-236)

`earlyReturn` is the quiet exit after a failed load (line 232's guard is
not taken); `raised` is an uncaught exception from the forecast step;
`done` carries the forecast map, the charts, and the final value of the
table variable. -/

inductive MainResult where
  | earlyReturn : MainResult
  | raised : String → MainResult
  | done : List (Int × ℚ) → ChartsOutput → List Row → MainResult

def data_processor_main (fitter : List (ℚ × ℚ) → ℚ × ℚ) (exp_growth : ℚ → ℚ → ℚ → ℚ)
    (input : Except String (List RawRow)) (opref : String)
    (clock : Nat → String) : MainResult :=
  match load_data input with
  | none => MainResult.earlyReturn
  | some df =>
      match forecast_future_registrations fitter exp_growth df with
      | Except.error e => MainResult.raised e
      | Except.ok forecasted_evs =>
          let po := plot_all_charts df forecasted_evs opref clock
          MainResult.done forecasted_evs po.1 po.2

/-! ## Concrete sample data (used by the witness theorems only) -/

deriving instance DecidableEq for Except

def exRowA : Row := ⟨"WA", 2020, "TESLA", "MODEL 3", "King", "Seattle", "BEV", 266⟩

def exRowB : Row := ⟨"WA", 2021, "TESLA", "MODEL Y", "King", "Seattle", "BEV", 291⟩

def exLate : Row := ⟨"WA", 2024, "TESLA", "CYBERTRUCK", "King", "Seattle", "BEV", 320⟩

def exDf : List Row := [exRowA, exRowB]

def exRaws : List RawRow :=
  [rowToRaw exRowA,
   ⟨some "WA", none, some "KIA", some "EV6", some "King", some "Kent", some "BEV", some 310⟩,
   ⟨some "CA", some 2020, some "KIA", some "EV6", some "King", some "Kent", some "BEV", some 310⟩,
   rowToRaw exRowB]

/-! ## Helper lemmas -/

theorem insertSorted_perm {α β : Type} [LinearOrder β] (key : α → β) (p : α) (l : List α) :
    List.Perm (insertSorted key p l) (p :: l) := by
  induction l with
  | nil => exact List.Perm.refl _
  | cons q rest ih =>
    show List.Perm (if key p ≤ key q then p :: q :: rest else q :: insertSorted key p rest)
      (p :: q :: rest)
    split
    · exact List.Perm.refl _
    · exact (ih.cons q).trans (List.Perm.swap p q rest)

theorem sortByKey_perm {α β : Type} [LinearOrder β] (key : α → β) (l : List α) :
    List.Perm (sortByKey key l) l := by
  induction l with
  | nil => exact List.Perm.refl _
  | cons p rest ih =>
    exact (insertSorted_perm key p (sortByKey key rest)).trans (ih.cons p)

theorem insertSorted_sorted {α β : Type} [LinearOrder β] (key : α → β) (p : α) (l : List α)
    (h : l.Pairwise (fun a b => key a ≤ key b)) :
    (insertSorted key p l).Pairwise (fun a b => key a ≤ key b) := by
  induction l with
  | nil => simp [insertSorted]
  | cons q rest ih =>
    rcases List.pairwise_cons.mp h with ⟨hq, hrest⟩
    show (if key p ≤ key q then p :: q :: rest else q :: insertSorted key p rest).Pairwise _
    split
    · refine List.pairwise_cons.mpr ⟨?_, h⟩
      intro b hb
      rcases List.mem_cons.mp hb with rfl | hb
      · assumption
      · exact le_trans (by assumption) (hq b hb)
    · refine List.pairwise_cons.mpr ⟨?_, ih hrest⟩
      intro b hb
      have hb2 : b ∈ p :: rest := (insertSorted_perm key p rest).subset hb
      rcases List.mem_cons.mp hb2 with rfl | hb3
      · exact le_of_not_le (by assumption)
      · exact hq b hb3

theorem sortByKey_sorted {α β : Type} [LinearOrder β] (key : α → β) (l : List α) :
    (sortByKey key l).Pairwise (fun a b => key a ≤ key b) := by
  induction l with
  | nil => simp [sortByKey]
  | cons p rest ih => exact insertSorted_sorted key p (sortByKey key rest) ih

theorem value_counts_perm {α : Type} [DecidableEq α] (l : List α) :
    List.Perm (value_counts l) (l.dedup.map (fun k => (k, l.count k))) :=
  sortByKey_perm _ _

theorem value_counts_sum {α : Type} [DecidableEq α] (l : List α) :
    ((value_counts l).map (fun p => p.2)).sum = l.length := by
  rw [((value_counts_perm l).map (fun p => p.2)).sum_eq, List.map_map]
  simpa using List.sum_map_count_dedup_eq_length l

theorem mem_value_counts {α : Type} [DecidableEq α] {l : List α} {p : α × Nat} :
    p ∈ value_counts l ↔ p.1 ∈ l ∧ p.2 = l.count p.1 := by
  rw [(value_counts_perm l).mem_iff, List.mem_map]
  constructor
  · rintro ⟨k, hk, rfl⟩
    exact ⟨List.mem_dedup.mp hk, rfl⟩
  · rintro ⟨h1, h2⟩
    exact ⟨p.1, List.mem_dedup.mpr h1, by cases p with | mk a b => simp at h2; simp [h2]⟩

theorem value_counts_keys_nodup {α : Type} [DecidableEq α] (l : List α) :
    ((value_counts l).map (fun p => p.1)).Nodup := by
  rw [((value_counts_perm l).map (fun p => p.1)).nodup_iff, List.map_map]
  simpa [Function.comp_def] using l.nodup_dedup

theorem value_counts_sorted {α : Type} [DecidableEq α] (l : List α) :
    (value_counts l).Pairwise (fun a b => b.2 ≤ a.2) :=
  (sortByKey_sorted (fun p : α × Nat => OrderDual.toDual p.2)
    (l.dedup.map (fun k => (k, l.count k)))).imp
    (fun h => OrderDual.toDual_le_toDual.mp h)


theorem pairwise_take_drop {α : Type} {r : α → α → Prop} {l : List α} (h : l.Pairwise r)
    {n : Nat} {x y : α} (hx : x ∈ l.take n) (hy : y ∈ l.drop n) : r x y :=
  h.rel_of_mem_take_of_mem_drop hx hy

theorem foldl_min_le (l : List Int) (acc : Int) :
    l.foldl min acc ≤ acc ∧ ∀ y ∈ l, l.foldl min acc ≤ y := by
  induction l generalizing acc with
  | nil => simp
  | cons a rest ih =>
    refine ⟨le_trans (ih (min acc a)).1 (min_le_left _ _), ?_⟩
    intro y hy
    rcases List.mem_cons.mp hy with rfl | hy
    · exact le_trans (ih (min acc y)).1 (min_le_right _ _)
    · exact (ih (min acc a)).2 y hy

theorem foldl_min_mem (l : List Int) (acc : Int) :
    l.foldl min acc = acc ∨ l.foldl min acc ∈ l := by
  induction l generalizing acc with
  | nil => exact Or.inl rfl
  | cons a rest ih =>
    show List.foldl min (min acc a) rest = acc ∨ List.foldl min (min acc a) rest ∈ a :: rest
    rcases ih (min acc a) with h | h
    · rcases le_total acc a with hle | hle
      · left
        rw [h, min_eq_left hle]
      · right
        rw [h, min_eq_right hle]
        exact List.mem_cons_self a rest
    · exact Or.inr (List.mem_cons_of_mem a h)

theorem idxMin_spec {l : List Int} {m : Int} (h : idxMin l = some m) :
    m ∈ l ∧ ∀ y ∈ l, m ≤ y := by
  match l with
  | [] => exact absurd h (by simp [idxMin])
  | y :: rest =>
    have hm : rest.foldl min y = m := by simpa [idxMin] using h
    constructor
    · rcases foldl_min_mem rest y with h2 | h2
      · rw [← hm, h2]
        exact List.mem_cons_self y rest
      · rw [← hm]
        exact List.mem_cons_of_mem y h2
    · intro z hz
      rcases List.mem_cons.mp hz with rfl | hz
      · rw [← hm]
        exact (foldl_min_le rest z).1
      · rw [← hm]
        exact (foldl_min_le rest y).2 z hz

theorem cleanRow_inv {a : RawRow} {r : Row} (h : cleanRow a = some r) :
    rowToRaw r = a := by
  obtain ⟨s, y, mk, md, co, ci, t, er⟩ := a
  simp only [cleanRow, Option.bind_eq_some, Option.map_eq_some'] at h
  obtain ⟨sv, rfl, yv, rfl, mkv, rfl, mdv, rfl, cov, rfl, civ, rfl, tv, rfl, erv, rfl, rfl⟩ := h
  rfl

theorem filterMap_cleanRow_sublist (raws : List RawRow) :
    ((raws.filterMap cleanRow).map rowToRaw).Sublist raws := by
  induction raws with
  | nil => simp
  | cons a l ih =>
    cases hc : cleanRow a with
    | none =>
      rw [List.filterMap_cons_none hc]
      exact ih.cons a
    | some r =>
      rw [List.filterMap_cons_some hc, List.map_cons, cleanRow_inv hc]
      exact ih.cons₂ a

theorem ev_adoption_sorted_le (df : List Row) :
    (ev_adoption_by_year df).Pairwise (fun a b => a.1 ≤ b.1) := by
  unfold ev_adoption_by_year sort_index
  exact sortByKey_sorted (fun p : Int × Nat => p.1) _

theorem ev_adoption_keys_nodup (df : List Row) :
    ((ev_adoption_by_year df).map (fun p => p.1)).Nodup := by
  unfold ev_adoption_by_year sort_index
  rw [((sortByKey_perm (fun p : Int × Nat => p.1)
    (value_counts (df.map (fun r => r.modelYear)))).map (fun p => p.1)).nodup_iff]
  exact value_counts_keys_nodup _

theorem ev_adoption_sorted_lt (df : List Row) :
    (ev_adoption_by_year df).Pairwise (fun a b => a.1 < b.1) := by
  have h1 := ev_adoption_sorted_le df
  have h2 : (ev_adoption_by_year df).Pairwise (fun a b => a.1 ≠ b.1) :=
    List.pairwise_map.mp (ev_adoption_keys_nodup df)
  exact (h1.and h2).imp (fun h => lt_of_le_of_ne h.1 h.2)

theorem filtered_years_sorted_lt (df : List Row) :
    (filtered_years df).Pairwise (fun a b => a.1 < b.1) :=
  List.Pairwise.sublist (List.filter_sublist _) (ev_adoption_sorted_lt df)

theorem filtered_years_nodup (df : List Row) : (filtered_years df).Nodup :=
  (filtered_years_sorted_lt df).imp (fun h heq => absurd (heq ▸ h) (lt_irrefl _))

theorem mem_filtered_years {df : List Row} {x : Int × Nat} :
    x ∈ filtered_years df ↔
      x.1 ≤ 2023 ∧ x.1 ∈ df.map (fun r => r.modelYear) ∧
      x.2 = (df.map (fun r => r.modelYear)).count x.1 := by
  unfold filtered_years ev_adoption_by_year sort_index
  rw [List.mem_filter, (sortByKey_perm (fun p : Int × Nat => p.1)
    (value_counts (df.map (fun r => r.modelYear)))).mem_iff, mem_value_counts]
  simp only [decide_eq_true_eq]
  tauto

theorem filtered_years_append (df extra : List Row)
    (hx : ∀ r ∈ extra, 2023 < r.modelYear) :
    filtered_years (df ++ extra) = filtered_years df := by
  haveI : IsAntisymm (Int × Nat) (fun a b => a.1 < b.1) :=
    ⟨fun a b h1 h2 => absurd (lt_trans h1 h2) (lt_irrefl _)⟩
  apply List.eq_of_perm_of_sorted (r := fun a b : Int × Nat => a.1 < b.1)
  · apply (List.perm_ext_iff_of_nodup (filtered_years_nodup _) (filtered_years_nodup _)).mpr
    intro x
    rw [mem_filtered_years, mem_filtered_years]
    have hnot : x.1 ≤ 2023 → ¬ (x.1 ∈ extra.map (fun r => r.modelYear)) := by
      intro h1 hmem
      rw [List.mem_map] at hmem
      obtain ⟨r, hr, hry⟩ := hmem
      have := hx r hr
      omega
    constructor
    · rintro ⟨h1, h2, h3⟩
      refine ⟨h1, ?_, ?_⟩
      · rw [List.map_append, List.mem_append] at h2
        rcases h2 with h2 | h2
        · exact h2
        · exact absurd h2 (hnot h1)
      · rw [List.map_append, List.count_append,
          List.count_eq_zero.mpr (hnot h1)] at h3
        omega
    · rintro ⟨h1, h2, h3⟩
      refine ⟨h1, ?_, ?_⟩
      · rw [List.map_append, List.mem_append]
        exact Or.inl h2
      · rw [List.map_append, List.count_append, List.count_eq_zero.mpr (hnot h1)]
        omega
  · exact filtered_years_sorted_lt (df ++ extra)
  · exact filtered_years_sorted_lt df

/-! ## Claim theorems -/

/-- C2: after `load_data` succeeds, no row of the returned table has a missing
value in any of the eight tracked columns, every row's `State` equals the
fixed target region `"WA"`, and the returned rows are an order-preserving
selection of the input rows (the list positions model the densely reset
index). -/
theorem load_data_cleaning (raws : List RawRow) (t : List Row)
    (h : load_data (Except.ok raws) = some t) :
    (∀ r ∈ t, r.state = "WA" ∧ allPresent (rowToRaw r) = true) ∧
    (t.map rowToRaw).Sublist raws := by
  have ht : (raws.filterMap cleanRow).filter (fun r => r.state == "WA") = t :=
    Option.some.inj h
  subst ht
  constructor
  · intro r hr
    rcases List.mem_filter.mp hr with ⟨_, hwa⟩
    exact ⟨by simpa using hwa, rfl⟩
  · exact ((List.filter_sublist _).map rowToRaw).trans (filterMap_cleanRow_sublist raws)

/-- Witness for C2 at a concrete parsed table containing a complete `WA` row,
a row with a missing `Model Year`, a complete non-`WA` row, and another
complete `WA` row: only the two `WA` rows survive, in input order. -/
theorem load_data_cleaning_check :
    (∀ r ∈ [exRowA, exRowB], r.state = "WA" ∧ allPresent (rowToRaw r) = true) ∧
    (([exRowA, exRowB].map rowToRaw) : List RawRow).Sublist exRaws :=
  load_data_cleaning exRaws [exRowA, exRowB] (by decide)

/-- C4: a read/parse failure in `load_data` (any exception from `pd.read_csv`,
modelled as an `Except.error` input) yields `none`, and `main` then performs
no forecast and renders no charts: it returns the quiet `earlyReturn`
outcome rather than raising. -/
theorem load_failure_short_circuits (fitter : List (ℚ × ℚ) → ℚ × ℚ)
    (exp_growth : ℚ → ℚ → ℚ → ℚ) (input : Except String (List RawRow))
    (msg opref : String) (clock : Nat → String)
    (h : input = Except.error msg) :
    load_data input = none ∧
    data_processor_main fitter exp_growth input opref clock = MainResult.earlyReturn := by
  subst h
  exact ⟨rfl, rfl⟩

/-- Witness for C4 at a concrete failing read. -/
theorem load_failure_short_circuits_check :
    load_data (Except.error "No such file or directory") = none ∧
    data_processor_main (fun _ => (0, 0)) (fun _ _ _ => 0)
      (Except.error "No such file or directory") "output/ev_data"
      (fun _ => "20240101_000000") = MainResult.earlyReturn :=
  load_failure_short_circuits _ _ _ "No such file or directory" _ _ rfl

/-- C3: when the fitting sample (distinct years at or before the 2023 cutoff)
has fewer than 2 entries, the forecast step fails with an error — the empty
sample fails at the argmin/leastsq stage and the singleton sample fails
`curve_fit`'s check that the 2 free parameters not exceed the number of data
points — rather than returning a degenerate or default map. -/
theorem forecast_fails_on_small_sample (fitter : List (ℚ × ℚ) → ℚ × ℚ)
    (exp_growth : ℚ → ℚ → ℚ → ℚ) (df : List Row)
    (h : (filtered_years df).length < 2) :
    ∃ e, forecast_future_registrations fitter exp_growth df = Except.error e := by
  rcases hfy : filtered_years df with _ | ⟨p, _ | ⟨q, rest⟩⟩
  · refine ⟨"attempt to get argmin of an empty sequence", ?_⟩
    simp [forecast_future_registrations, hfy, idxMin]
  · refine ⟨"Improper input: N=2 must not exceed M", ?_⟩
    simp [forecast_future_registrations, hfy, idxMin, curve_fit, fit_xdata, fit_ydata]
  · rw [hfy, List.length_cons, List.length_cons] at h
    omega

/-- Witness for C3: a table with two rows but a single distinct model year
(2020) has a one-point fitting sample, and the forecast errors out. -/
theorem forecast_fails_on_small_sample_check :
    ∃ e, forecast_future_registrations (fun _ => (0, 0)) (fun _ _ _ => 0)
      [exRowA, exRowA] = Except.error e :=
  forecast_fails_on_small_sample _ _ [exRowA, exRowA] (by decide)

/-- C5: the per-year, per-county and per-vehicle-type count aggregations each
partition the cleaned table: their counts sum to the number of rows. -/
theorem aggregation_counts_sum (df : List Row) :
    ((ev_adoption_by_year df).map (fun p => p.2)).sum = df.length ∧
    ((ev_county_distribution df).map (fun p => p.2)).sum = df.length ∧
    ((ev_type_distribution df).map (fun p => p.2)).sum = df.length := by
  refine ⟨?_, ?_, ?_⟩
  · unfold ev_adoption_by_year sort_index
    rw [((sortByKey_perm (fun p : Int × Nat => p.1)
      (value_counts (df.map (fun r => r.modelYear)))).map (fun p => p.2)).sum_eq,
      value_counts_sum, List.length_map]
  · unfold ev_county_distribution
    rw [value_counts_sum, List.length_map]
  · unfold ev_type_distribution
    rw [value_counts_sum, List.length_map]

/-- C8: the display-label transformation keeps labels of length at most 12
unchanged (length exactly 12 included) and otherwise emits the first 12
characters followed by the three-dot ellipsis marker. -/
theorem truncate_label_spec (s : String) :
    (12 < s.length → truncate_label s = s.take 12 ++ "...") ∧
    (s.length ≤ 12 → truncate_label s = s) := by
  constructor
  · intro h
    unfold truncate_label
    rw [if_pos h]
  · intro h
    unfold truncate_label
    rw [if_neg (by omega)]

/-- Witness for C8: a 17-character city label is truncated, a 7-character one
is unchanged. -/
theorem truncate_label_check :
    truncate_label "Mountlake Terrace" = ("Mountlake Terrace" : String).take 12 ++ "..." ∧
    truncate_label "Seattle" = "Seattle" :=
  ⟨(truncate_label_spec "Mountlake Terrace").1 (by decide),
   (truncate_label_spec "Seattle").2 (by decide)⟩

/-- C9: the renderer leaves the registration table unchanged — the table
variable threaded through `plot_all_charts` comes back equal to its value at
entry, and aggregations recomputed from the table inside the renderer (the
average-range series, computed after the city-label truncation at line 81,
and the actual-registrations line, computed last at lines 173-174 after
both model-label truncations) coincide with the same aggregations of the
original table: all truncation and filtering happened on derived copies. -/
theorem renderer_leaves_table_unchanged (df : List Row)
    (forecasted_evs : List (Int × ℚ)) (opref : String) (clock : Nat → String) :
    (plot_all_charts df forecasted_evs opref clock).2 = df ∧
    (plot_all_charts df forecasted_evs opref clock).1.avgRange = average_range_by_year df ∧
    (plot_all_charts df forecasted_evs opref clock).1.actualLine = filtered_years df :=
  ⟨rfl, rfl, rfl⟩

/-- C10: the eight chart filenames of a single `plot_all_charts` run all embed
the one timestamp read at the start of the run (clock reading 0 — the clock
is consulted exactly once, so later ticks cannot appear), hence they differ
only in their chart slug. -/
theorem chart_filenames_share_timestamp (df : List Row)
    (forecasted_evs : List (Int × ℚ)) (opref : String) (clock : Nat → String) :
    [(plot_all_charts df forecasted_evs opref clock).1.adoptionFile,
     (plot_all_charts df forecasted_evs opref clock).1.topCitiesFile,
     (plot_all_charts df forecasted_evs opref clock).1.typeDistFile,
     (plot_all_charts df forecasted_evs opref clock).1.makesFile,
     (plot_all_charts df forecasted_evs opref clock).1.topModelsFile,
     (plot_all_charts df forecasted_evs opref clock).1.avgRangeFile,
     (plot_all_charts df forecasted_evs opref clock).1.topRangeFile,
     (plot_all_charts df forecasted_evs opref clock).1.forecastFile] =
      chart_slugs.map (fun slug => chart_filename opref slug (clock 0)) :=
  rfl

/-- C1: whenever the forecast succeeds, the forecast map has exactly 6
entries, keyed by the fixed years 2024-2029 (independent of the last
historical year present), and the value at each year `y` is the fitted
model `exp_growth a b` — standing for `a * exp(b * x)` — evaluated at the
offset `y - ymin`, where `(a, b)` are the parameters returned by
`curve_fit` on the fitting sample and `ymin` is the smallest year present
at or before the 2023 cutoff. -/
theorem forecast_map_shape (fitter : List (ℚ × ℚ) → ℚ × ℚ)
    (exp_growth : ℚ → ℚ → ℚ → ℚ) (df : List Row) (m : List (Int × ℚ))
    (h : forecast_future_registrations fitter exp_growth df = Except.ok m) :
    m.length = 6 ∧
    m.map (fun p => p.1) = [2024, 2025, 2026, 2027, 2028, 2029] ∧
    ∃ ymin a b,
      idxMin ((filtered_years df).map (fun p => p.1)) = some ymin ∧
      ymin ∈ (filtered_years df).map (fun p => p.1) ∧
      (∀ q ∈ filtered_years df, ymin ≤ q.1) ∧
      curve_fit fitter ((fit_xdata df ymin).zip (fit_ydata df)) = Except.ok (a, b) ∧
      ∀ p ∈ m, p.2 = exp_growth a b ((p.1 - ymin : Int) : ℚ) := by
  unfold forecast_future_registrations at h
  split at h
  · exact absurd h (by simp)
  next ymin hmin =>
    split at h
    · exact absurd h (by simp)
    next a b hfit =>
      have hm := Except.ok.inj h
      subst hm
      have hspec := idxMin_spec hmin
      refine ⟨by simp [forecast_years_full], ?_, ymin, a, b, hmin, hspec.1, ?_, hfit, ?_⟩
      · rw [List.map_map]
        simp [forecast_years_full]
      · intro q hq
        exact hspec.2 q.1 (List.mem_map_of_mem (fun p => p.1) hq)
      · intro p hp
        rcases List.mem_map.mp hp with ⟨y, _, rfl⟩
        rfl

/-- Witness for C1: `forecast_map_shape` applied at a two-year table with a
trivial solver and model, projecting the keys-are-2024-2029 component. -/
theorem forecast_map_shape_check :
    ([((2024 : Int), (0 : ℚ)), (2025, 0), (2026, 0), (2027, 0), (2028, 0),
      (2029, 0)].map (fun p => p.1)) = [2024, 2025, 2026, 2027, 2028, 2029] :=
  (forecast_map_shape (fun _ => (0, 0)) (fun _ _ _ => 0) exDf
    [(2024, 0), (2025, 0), (2026, 0), (2027, 0), (2028, 0), (2029, 0)]
    (by decide)).2.1

/-- C6: the fitting sample and the rendered actual-registrations line use
exactly the per-year counts for years at or before the 2023 cutoff: every
sampled year is ≤ 2023, and appending rows with later model years changes
neither the sample, nor the forecast output, nor the actual line of the
combined forecast chart. -/
theorem fit_sample_respects_cutoff (df extra : List Row)
    (fitter : List (ℚ × ℚ) → ℚ × ℚ) (exp_growth : ℚ → ℚ → ℚ → ℚ)
    (forecasted_evs : List (Int × ℚ)) (opref : String) (clock : Nat → String)
    (hx : ∀ r ∈ extra, 2023 < r.modelYear) :
    (∀ p ∈ filtered_years df, p.1 ≤ 2023) ∧
    filtered_years (df ++ extra) = filtered_years df ∧
    forecast_future_registrations fitter exp_growth (df ++ extra) =
      forecast_future_registrations fitter exp_growth df ∧
    (plot_all_charts (df ++ extra) forecasted_evs opref clock).1.actualLine =
      (plot_all_charts df forecasted_evs opref clock).1.actualLine := by
  have heq := filtered_years_append df extra hx
  refine ⟨?_, heq, ?_, ?_⟩
  · intro p hp
    exact (mem_filtered_years.mp hp).1
  · unfold forecast_future_registrations fit_xdata fit_ydata
    rw [heq]
  · show filtered_years (df ++ extra) = filtered_years df
    exact heq

/-- Witness for C6: appending a 2024 row to the two-year sample table leaves
the sample, the forecast, and the actual line untouched. -/
theorem fit_sample_respects_cutoff_check :
    (∀ p ∈ filtered_years exDf, p.1 ≤ 2023) ∧
    filtered_years (exDf ++ [exLate]) = filtered_years exDf ∧
    forecast_future_registrations (fun _ => (0, 0)) (fun _ _ _ => 0)
      (exDf ++ [exLate]) =
      forecast_future_registrations (fun _ => (0, 0)) (fun _ _ _ => 0) exDf ∧
    (plot_all_charts (exDf ++ [exLate]) [] "output/ev_data"
      (fun _ => "20240101_000000")).1.actualLine =
      (plot_all_charts exDf [] "output/ev_data"
      (fun _ => "20240101_000000")).1.actualLine :=
  fit_sample_respects_cutoff exDf [exLate] _ _ _ _ _ (by decide)

theorem average_range_by_model_sorted (df : List Row) :
    (average_range_by_model df).Pairwise (fun a b => b.2 ≤ a.2) := by
  unfold average_range_by_model
  exact (sortByKey_sorted (fun p : (String × String) × ℚ => OrderDual.toDual p.2) _).imp
    (fun h => OrderDual.toDual_le_toDual.mp h)

/-- C7: every top-N selection of the renderer keeps at most N keys and keeps
the N highest entries by the relevant count or mean: the top-3 counties, the
top-5 makes, the top-3 of those makes (equivalently the top 3 of all makes,
since the top-5 list is sorted), the top-5 (county, city) pairs — taken
over all pairs of the top-3-county subset at once, not 5 per county — the
top-5 (make, model) pairs by count, and the top-5 (make, model) pairs by
mean range. Each "highest" conjunct says every kept entry is at least as
large as every dropped candidate. -/
theorem topN_selections (df : List Row) :
    (top_counties df).length ≤ 3 ∧
    (∀ x ∈ (ev_county_distribution df).take 3,
      ∀ y ∈ (ev_county_distribution df).drop 3, y.2 ≤ x.2) ∧
    (ev_make_distribution df).length ≤ 5 ∧
    (∀ x ∈ ev_make_distribution df, ∀ y ∈ (make_counts df).drop 5, y.2 ≤ x.2) ∧
    (top_3_makes df).length ≤ 3 ∧
    (∀ x ∈ (ev_make_distribution df).take 3, ∀ y ∈ (make_counts df).drop 3, y.2 ≤ x.2) ∧
    ev_city_distribution_top_counties df = (city_pair_counts df).take 5 ∧
    (ev_city_distribution_top_counties df).length ≤ 5 ∧
    (∀ x ∈ ev_city_distribution_top_counties df,
      ∀ y ∈ (city_pair_counts df).drop 5, y.2 ≤ x.2) ∧
    (top_models df).length ≤ 5 ∧
    (∀ x ∈ top_models df, ∀ y ∈ (model_pair_counts df).drop 5, y.2 ≤ x.2) ∧
    (top_range_models df).length ≤ 5 ∧
    (∀ x ∈ top_range_models df, ∀ y ∈ (average_range_by_model df).drop 5, y.2 ≤ x.2) := by
  refine ⟨?_, ?_, ?_, ?_, ?_, ?_, rfl, ?_, ?_, ?_, ?_, ?_, ?_⟩
  · rw [top_counties, List.length_map, List.length_take]
    exact min_le_left _ _
  · intro x hx y hy
    exact pairwise_take_drop (value_counts_sorted _) hx hy
  · rw [ev_make_distribution, List.length_take]
    exact min_le_left _ _
  · intro x hx y hy
    exact pairwise_take_drop (value_counts_sorted _) hx hy
  · rw [top_3_makes, List.length_map, List.length_take]
    exact min_le_left _ _
  · intro x hx y hy
    rw [ev_make_distribution, List.take_take] at hx
    exact pairwise_take_drop (value_counts_sorted _) hx hy
  · rw [ev_city_distribution_top_counties, List.length_take]
    exact min_le_left _ _
  · intro x hx y hy
    rw [ev_city_distribution_top_counties] at hx
    exact pairwise_take_drop (value_counts_sorted _) hx hy
  · rw [top_models, List.length_take]
    exact min_le_left _ _
  · intro x hx y hy
    rw [top_models] at hx
    exact pairwise_take_drop (value_counts_sorted _) hx hy
  · rw [top_range_models, List.length_take]
    exact min_le_left _ _
  · intro x hx y hy
    rw [top_range_models] at hx
    exact pairwise_take_drop (average_range_by_model_sorted df) hx hy

/-- Witness for C7: the top-county selection of the sample table has at most
3 keys. -/
theorem topN_selections_check : (top_counties exDf).length ≤ 3 :=
  (topN_selections exDf).1
